import Mathlib

/-!
Verification development for the `ansible-testing` module validator
(`ansible_testing/modules.py`).

The Python source is shallowly embedded: file text is a `List Char`, the
Python AST is a small tagged-variant type `Stmt`, and every check of
`ModuleValidator` becomes a pure Lean function returning the list of error
or warning messages it appends.  External collaborators (the ansible
registry, `BLACKLIST_MODULES`, `REPLACER_WINDOWS`, the YAML parser and
schema used by `_validate_docs`, `find_globals` from `utils.py`) are
injected through an `Env` record, mirroring the spec treatment of them as
external capabilities.
-/

namespace AnsibleTesting

/-- Python-style loop that appends `f x` to an accumulator for each element:
`for x in l: acc += f x`.  All the validator loops have this shape. -/
def pyFold (f : α → List β) (l : List α) : List β :=
  l.foldl (fun acc x => acc ++ f x) []

theorem foldl_append_init (f : α → List β) :
    ∀ (l : List α) (init : List β),
      l.foldl (fun acc x => acc ++ f x) init = init ++ pyFold f l := by
  intro l
  induction l with
  | nil => intro init; simp [pyFold]
  | cons x xs ih =>
      intro init
      simp only [List.foldl_cons, pyFold, List.nil_append]
      rw [ih (init ++ f x), ih (f x)]
      simp [pyFold, List.append_assoc]

theorem pyFold_cons (f : α → List β) (x : α) (xs : List α) :
    pyFold f (x :: xs) = f x ++ pyFold f xs := by
  simp only [pyFold, List.foldl_cons, List.nil_append]
  exact foldl_append_init f xs (f x)

theorem pyFold_append (f : α → List β) (l l₂ : List α) :
    pyFold f (l ++ l₂) = pyFold f l ++ pyFold f l₂ := by
  induction l with
  | nil => simp [pyFold]
  | cons x xs ih => simp [pyFold_cons, ih, List.append_assoc]

theorem mem_pyFold {f : α → List β} {l : List α} {b : β} :
    b ∈ pyFold f l ↔ ∃ a ∈ l, b ∈ f a := by
  induction l with
  | nil => simp [pyFold]
  | cons x xs ih =>
      rw [pyFold_cons]
      simp only [List.mem_append, ih, List.mem_cons]
      constructor
      · rintro (h | ⟨a, ha, hb⟩)
        · exact ⟨x, Or.inl rfl, h⟩
        · exact ⟨a, Or.inr ha, hb⟩
      · rintro ⟨a, (rfl | ha), hb⟩
        · exact Or.inl hb
        · exact Or.inr ⟨a, ha, hb⟩

/-- Substring test, modelling the Python `needle in haystack` operator on
strings. -/
def containsSub : List Char → List Char → Bool
  | needle, [] => needle.isEmpty
  | needle, c :: rest => needle.isPrefixOf (c :: rest) || containsSub needle rest

/-- Python `str.splitlines()` restricted to the newline character: splits at
each newline and drops a final empty segment produced by a trailing
newline. -/
def pySplitlinesAux : List Char → List Char → List (List Char)
  | [], cur => if cur.isEmpty then [] else [cur.reverse]
  | c :: rest, cur =>
      if c = '\n' then cur.reverse :: pySplitlinesAux rest []
      else pySplitlinesAux rest (c :: cur)

def pySplitlines (s : List Char) : List (List Char) := pySplitlinesAux s []

/-- Python `str.split` on the dot character (used on version strings). -/
def splitDotsAux : List Char → List Char → List (List Char)
  | [], cur => [cur.reverse]
  | c :: rest, cur =>
      if c = '.' then cur.reverse :: splitDotsAux rest []
      else splitDotsAux rest (c :: cur)

def splitDots (s : List Char) : List (List Char) := splitDotsAux s []

/-- Python `str.startswith`, at the level of character lists. -/
def pyStartsWith (p s : String) : Bool := p.data.isPrefixOf s.data

/-- Python `str.lower` (ASCII). -/
def pyLower (s : String) : String := String.mk (s.data.map Char.toLower)

/-- Python `s[1:]` on a string. -/
def strTail (s : String) : String := String.mk s.data.tail

/-- Python `repr` of a string value (used by `%r` in error messages); the
quote character is written as an escape. -/
def pyRepr (s : String) : String := "\u0027" ++ s ++ "\u0027"

/-- `fnmatch.fnmatch` restricted to the metacharacters actually occurring in
the blacklist patterns (`*` and `?`; no character classes).  The recursion
is driven by a fuel argument so the function reduces definitionally; every
recursive call shrinks `p.length + s.length`, so the fuel supplied by
`globMatch` is always sufficient. -/
def globMatchAux : Nat → List Char → List Char → Bool
  | _, [], s => s.isEmpty
  | 0, _ :: _, _ => false
  | fuel + 1, '*' :: ps, [] => globMatchAux fuel ps []
  | fuel + 1, '*' :: ps, a :: sr =>
      globMatchAux fuel ps (a :: sr) || globMatchAux fuel ('*' :: ps) sr
  | _ + 1, _ :: _, [] => false
  | fuel + 1, c :: ps, a :: sr =>
      (if c = '?' then true else decide (a = c)) && globMatchAux fuel ps sr

def globMatch (p s : List Char) : Bool := globMatchAux (p.length + s.length) p s

/-- Two-component (plus optional third) version value, the numeric core of
`distutils.version.StrictVersion`: `"M.N"` parses as `(M, N, 0)` and
`"M.N.P"` as `(M, N, P)`.  The prerelease `a`/`b` suffix of `StrictVersion`
is not modelled; versions with such a suffix simply fail to parse here. -/
abbrev Version := Nat × Nat × Nat

def parseNat? (cs : List Char) : Option Nat :=
  if cs.isEmpty then none
  else if cs.all Char.isDigit then
    some (cs.foldl (fun n c => n * 10 + (c.toNat - 48)) 0)
  else none

/-- `StrictVersion(s)` as an option: `none` models the `ValueError`. -/
def parseStrictVersion (s : String) : Option Version :=
  match (splitDots s.data).map parseNat? with
  | [some a, some b] => some (a, b, 0)
  | [some a, some b, some c] => some (a, b, c)
  | _ => none

/-- `str(StrictVersion(...))`: drops a zero patch component. -/
def strictVersionStr (v : Version) : String :=
  if v.2.2 = 0 then toString v.1 ++ "." ++ toString v.2.1
  else toString v.1 ++ "." ++ toString v.2.1 ++ "." ++ toString v.2.2

/-- Lexicographic order on version tuples, as `StrictVersion.__lt__` compares
numeric version tuples. -/
def ltV : Version → Version → Bool
  | (a, b, c), (d, e, f) =>
      decide (a < d) ||
        (decide (a = d) && (decide (b < e) || (decide (b = e) && decide (c < f))))

theorem ltV_or_symm_iff_ne (x y : Version) :
    (ltV x y || ltV y x) = true ↔ x ≠ y := by
  obtain ⟨a, b, c⟩ := x
  obtain ⟨d, e, f⟩ := y
  simp only [ltV, Bool.or_eq_true, Bool.and_eq_true, decide_eq_true_eq,
    ne_eq, Prod.mk.injEq, not_and]
  omega

theorem ltV_irrefl (v : Version) : ltV v v = false := by
  cases h : ltV v v with
  | false => rfl
  | true =>
      have : (ltV v v || ltV v v) = true := by rw [h]; rfl
      exact absurd rfl ((ltV_or_symm_iff_ne v v).mp this)

/-- The join, with dots, of the first two dot-separated components of
`ansible_version`: the current release line as a
two-component version string. -/
def versionPrefix2 (v : String) : String :=
  String.mk (List.intercalate ['.'] ((splitDots v.data).take 2))

/-! ## The AST model

A tagged-variant embedding of the `ast` node kinds the validator inspects.
Constructor payloads keep exactly the attributes the source reads:

* `assign`: the target `Name` identifiers, the string value (`child.value.s`)
  and the line number;
* `importStmt` / `importFromStmt`: the `alias` list (name and optional
  `asname`), the module for `from` imports, and the line number;
* `tryExcept`: the body and the bodies of the handlers;
* `ifStmt`: `child.test.left.id` when the test has that attribute path
  (`none` models the `AttributeError` branch), and the body;
* `exprCall`: an `Expr` statement whose value is a `Call`; the payload is the
  callee identifier when the callee is a `Name` (`none` otherwise);
* `exprOther` / `other`: any other `Expr` statement or statement kind. -/

structure Alias where
  name : String
  asname : Option String
deriving DecidableEq, Repr

inductive Stmt where
  | assign (targets : List String) (value : String) (lineno : Nat)
  | importStmt (names : List Alias) (lineno : Nat)
  | importFromStmt (module : String) (names : List Alias) (lineno : Nat)
  | tryExcept (body : List Stmt) (handlers : List (List Stmt)) (lineno : Nat)
  | ifStmt (testLeftId : Option String) (body : List Stmt) (lineno : Nat)
  | exprCall (funcNameId : Option String) (lineno : Nat)
  | exprOther (lineno : Nat)
  | other (lineno : Nat)

/-! ## External environment

Everything the validator consults outside its own file is injected here,
matching the spec treatment of the registry, the shared base library and the
documentation machinery as external collaborators. -/

/-- Outcome of fetching the previously published document of an existing
module (`module_loader.find_plugin` followed by `get_docstring`):
either the published document, or an `AssertionError` (a missing
documentation fragment), or any other exception. -/
inductive Fetch where
  | found (versionAdded : Option String) (options : List (String × Bool))
  | assertFail
  | otherFail
deriving DecidableEq, Repr

structure Env where
  /-- `BLACKLIST_MODULES` from `ansible.utils.module_docs`. -/
  blacklistModules : List String
  /-- `ansible.__version__`. -/
  ansibleVersion : String
  /-- `module_loader.has_plugin`. -/
  hasPlugin : String → Bool
  /-- `module_loader.find_plugin` plus `get_docstring` on the result: the
  previously published document of an existing module. -/
  fetchExisting : String → Fetch
  /-- `REPLACER_WINDOWS` from `ansible.executor.module_common`. -/
  replacerWindows : List Char
  /-- Whether the companion `.py` documentation file of a powershell module
  exists (`os.path.isfile` in `_find_ps_docs_py_file`). -/
  psDocPyFileExists : Bool
  /-- `find_globals` from `utils.py` (repository code outside the embedded
  file): the set of top-level names the module defines. -/
  findGlobals : List Stmt → List String
  /-- `BASIC_RESERVED`: the public names of `ansible.module_utils.basic`. -/
  basicReserved : List String
  /-- The report delta produced by `_validate_docs` for this module.  That
  method is driven by the external YAML parser, the `schema` module and
  `get_docstring`, so its outcome is injected rather than recomputed; the
  claims about its inner version checks target `checkVersionAdded` and
  `checkForNewArgs` directly. -/
  docsErrors : List String
  docsWarnings : List String
  docsTraces : Nat

/-! ## The validated artifact -/

structure PyModule where
  /-- The artifact path (`self.path`). -/
  path : List Char
  /-- `os.path.basename(self.path)`. -/
  basename : String
  /-- The basename with its extension split off (`self.name`). -/
  name : String
  /-- The raw file text (`self.text`). -/
  text : List Char
  /-- `ast.parse(self.text)`, with `none` modelling the parse failure that
  leaves `self.ast = None`. -/
  astOpt : Option (List Stmt)

/-- `self.path.endswith(".py")`. -/
def pyExt (m : PyModule) : Bool := ".py".data.isSuffixOf m.path

/-- `self.path.endswith(".ps1")`. -/
def ps1Ext (m : PyModule) : Bool := ".ps1".data.isSuffixOf m.path

/-! ## The rule checks -/

/-- `_check_interpreter`. -/
def checkInterpreter (powershell : Bool) (text : List Char) : List String :=
  if powershell then
    if "#!powershell\n".data.isPrefixOf text then []
    else ["Interpreter line is not \"#!powershell\""]
  else
    if "#!/usr/bin/python".data.isPrefixOf text then []
    else ["Interpreter line is not \"#!/usr/bin/python\""]

/-- `_check_for_sys_exit`. -/
def checkForSysExit (text : List Char) : List String :=
  if containsSub "sys.exit(".data text then
    ["sys.exit() call found. Should be exit_json/fail_json"]
  else []

/-- `_check_for_gpl3_header`: the error fires only when both marker
substrings are missing from the raw text. -/
def checkForGpl3Header (text : List Char) : List String :=
  if !containsSub "GNU General Public License".data text &&
      !containsSub "version 3".data text then
    ["GPLv3 license header not found"]
  else []

def tabMsg (lineNo col : Nat) : String :=
  "indentation contains tabs. line " ++ toString lineNo ++ " column " ++ toString col

/-- `_check_for_tabs`.  `INDENT_REGEX.search` always yields a (possibly
empty) match object, which is truthy, so the guard reduces to the membership
test of a tab being in the line; the reported column is the 0-based index of the first
tab in the line (the `index` of the tab), while the line number is 1-based. -/
def checkForTabs (text : List Char) : List String :=
  pyFold
    (fun p =>
      if p.2.contains '\t' then
        [tabMsg (p.1 + 1) (p.2.findIdx (fun c => c = '\t'))]
      else [])
    (pySplitlines text).enum

/-- `_find_json_import` (a warning). -/
def findJsonImport (body : List Stmt) : List String :=
  pyFold
    (fun child =>
      match child with
      | Stmt.importStmt names _ =>
          pyFold
            (fun a =>
              if a.name = "json" then
                ["JSON import found, already provided by ansible.module_utils.basic"]
              else [])
            names
      | _ => [])
    body

/-- `bodies = child.body; for handler in child.handlers: bodies.extend(handler.body)`. -/
def tryExceptBodies (body : List Stmt) (handlers : List (List Stmt)) : List Stmt :=
  body ++ pyFold id handlers

def requestsMsg : String :=
  "requests import found, should use ansible.module_utils.urls instead"

/-- `_find_requests_import`. -/
def findRequestsImport (body : List Stmt) : List String :=
  pyFold
    (fun child =>
      match child with
      | Stmt.importStmt names _ =>
          pyFold (fun a => if a.name = "requests" then [requestsMsg] else []) names
      | Stmt.tryExcept tb hb _ =>
          pyFold
            (fun g =>
              match g with
              | Stmt.importStmt names _ =>
                  pyFold (fun a => if a.name = "requests" then [requestsMsg] else []) names
              | _ => [])
            (tryExceptBodies tb hb)
      | _ => [])
    body

def bottomImports : List String :=
  ["ansible.module_utils.basic", "ansible.module_utils.urls",
   "ansible.module_utils.facts", "ansible.module_utils.splitter",
   "ansible.module_utils.known_hosts", "ansible.module_utils.rax"]

def bottomImportsBlacklist : List String := ["command.py"]

/-- The error messages one `ImportFrom` child contributes in
`_find_module_utils`.  `found_alias` remains `False` exactly when the alias
list is empty (every element of `ImportFrom.names` is an `ast.alias`), which
duplicates the `did not import "*"` message for an empty alias list. -/
def moduleUtilsChildErrors (blacklisted : Bool) (mainLn : Nat) (child : Stmt) :
    List String :=
  match child with
  | Stmt.importFromStmt module names ln =>
      if pyStartsWith "ansible.module_utils." module then
        (if bottomImports.contains module ∧ ln < mainLn - 10 ∧ !blacklisted then
            [module ++ " import not near call to main()"]
          else [])
        ++ (if names.isEmpty then [module ++ ": not a \"from\" import\""] else [])
        ++ pyFold
            (fun a =>
              if a.asname.isSome ∨ a.name ≠ "*" then
                [module ++ ": did not import \"*\""]
              else [])
            names
        ++ (if names.isEmpty then [module ++ ": did not import \"*\""] else [])
      else []
  | _ => []

/-- The line numbers `_find_module_utils` collects. -/
def moduleUtilsLinenos (body : List Stmt) : List Nat :=
  pyFold
    (fun child =>
      match child with
      | Stmt.importFromStmt module _ ln =>
          if pyStartsWith "ansible.module_utils." module then [ln] else []
      | _ => [])
    body

/-- `_find_module_utils` (error messages; the returned line numbers are
`moduleUtilsLinenos`, unused by the caller). -/
def findModuleUtils (objectName : String) (body : List Stmt) (mainLn : Nat) :
    List String :=
  pyFold (moduleUtilsChildErrors (bottomImportsBlacklist.contains objectName) mainLn) body
  ++ (if (moduleUtilsLinenos body).isEmpty then ["Did not find a module_utils import"] else [])

/-- The bodies of all top-level `if` statements whose test is a comparison
with left operand `__name__` (the guard bodies `_find_main_call` collects
into `if_bodies`). -/
def ifBodies (body : List Stmt) : List Stmt :=
  pyFold
    (fun child =>
      match child with
      | Stmt.ifStmt testLeftId b _ =>
          if testLeftId = some "__name__" then b else []
      | _ => [])
    body

/-- The line numbers of the `main()` call expressions in a statement list. -/
def mainLinenos (body : List Stmt) : List Nat :=
  pyFold
    (fun child =>
      match child with
      | Stmt.exprCall f ln => if f = some "main" then [ln] else []
      | _ => [])
    body

def mainNotLastMsg : String := "Call to main() not the last line"

structure MainCallResult where
  /-- `self.ast.body` after the call: `bodies = self.ast.body` aliases the
  list in place, so `bodies.extend(if_bodies)` appends the guard bodies to
  the AST itself and every later check sees the extended list. -/
  newBody : List Stmt
  errors : List String
  /-- `lineno or 0` (the loop keeps the last matching call; `0` both for no
  call found and for a call whose line number is `0`, matching Python
  truthiness of `lineno`). -/
  mainLineno : Nat

/-- `_find_main_call`.  The `not the last line` error fires only when the
call line is strictly below `self.length - 1`, i.e. at least two lines
follow it. -/
def findMainCall (length : Nat) (body : List Stmt) : MainCallResult :=
  let bodies := body ++ ifBodies body
  let lineno := (mainLinenos bodies).getLastD 0
  { newBody := bodies
    errors :=
      pyFold
        (fun child =>
          match child with
          | Stmt.exprCall f ln =>
              if f = some "main" ∧ ln < length - 1 then [mainNotLastMsg] else []
          | _ => [])
        bodies
      ++ (if lineno = 0 then ["Did not find a call to main"] else [])
    mainLineno := lineno }

def hasImportIn (l : List Stmt) : Bool :=
  l.any (fun s =>
    match s with
    | Stmt.importStmt _ _ => true
    | _ => false)

def hasHasAssign (l : List Stmt) : Bool :=
  l.any (fun s =>
    match s with
    | Stmt.assign targets _ _ =>
        targets.any (fun t => pyStartsWith "has_" (pyLower t))
    | _ => false)

def hasMsg : String := "Found Try/Except block without HAS_ assginment"

/-- `_find_has_import` (a warning; the misspelling is the source text). -/
def findHasImport (body : List Stmt) : List String :=
  pyFold
    (fun child =>
      match child with
      | Stmt.tryExcept tb hb _ =>
          if hasImportIn (tryExceptBodies tb hb) &&
              !hasHasAssign (tryExceptBodies tb hb) then [hasMsg]
          else []
      | _ => [])
    body

/-- `_find_ps_replacers`. -/
def findPsReplacers (replacerWindows : List Char) (text : List Char) : List String :=
  (if containsSub "WANT_JSON".data text then [] else ["WANT_JSON not found in module"])
  ++ (if containsSub replacerWindows text then []
      else ["\"" ++ String.mk replacerWindows ++ "\" not found in module"])

def psDocBlacklist : List String := ["slurp.ps1", "setup.ps1"]

/-- `_find_ps_docs_py_file`. -/
def findPsDocsPyFile (env : Env) (objectName : String) : List String :=
  if psDocBlacklist.contains objectName then []
  else if env.psDocPyFileExists then []
  else ["Missing python documentation file"]

/-- `_find_redeclarations` (a warning).  `find_globals` lives in `utils.py`
and is injected through the environment. -/
def findRedeclarations (env : Env) (body : List Stmt) : List String :=
  let g := env.findGlobals body
  let redeclared := env.basicReserved.filter (fun r => g.contains r)
  if redeclared.isEmpty then []
  else ["Redeclared basic.py variable or function: " ++ String.intercalate ", " redeclared]

structure DocEntry where
  value : Option String
  lineno : Nat
deriving DecidableEq, Repr

structure Docs where
  documentation : DocEntry
  examples : DocEntry
  returns : DocEntry
deriving DecidableEq, Repr

/-- `_get_docs`: scans the top-level assignments; the `EXAMPLES` literal is
recorded with its first character dropped (`child.value.s[1:]`), while the
`DOCUMENTATION` and `RETURN` literals are recorded verbatim.  The model
restricts assignment values to string literals, the only case the source
reads without raising. -/
def getDocs (body : List Stmt) : Docs :=
  body.foldl
    (fun docs child =>
      match child with
      | Stmt.assign targets value lineno =>
          targets.foldl
            (fun docs target =>
              if target = "DOCUMENTATION" then
                { docs with documentation := ⟨some value, lineno⟩ }
              else if target = "EXAMPLES" then
                { docs with examples := ⟨some (strTail value), lineno⟩ }
              else if target = "RETURN" then
                { docs with returns := ⟨some value, lineno⟩ }
              else docs)
            docs
      | _ => docs)
    ⟨⟨none, 0⟩, ⟨none, 0⟩, ⟨none, 0⟩⟩

/-! ## Validation driver -/

def isAssignB : Stmt → Bool
  | Stmt.assign _ _ _ => true
  | _ => false

/-- `_just_docs`: every top-level statement is an assignment; the
`AttributeError` on a missing AST yields `False`. -/
def justDocs : Option (List Stmt) → Bool
  | none => false
  | some body => body.all isAssignB

def blacklistFiles : List String :=
  [".git", ".gitignore", ".travis.yml", ".gitattributes", ".gitmodules",
   "COPYING", "__init__.py", "VERSION", "test-docs.sh"]

def blacklistPatterns : List String :=
  [".git*", "*.pyc", "*.pyo", ".*", "*.md", "*.txt"]

/-- The two blacklist gates at the top of `ModuleValidator.validate`:
membership of the basename or stem in `BLACKLIST`
(`BLACKLIST_FILES | BLACKLIST_MODULES`), or an `fnmatch` of the basename
against `BLACKLIST_PATTERNS`. -/
def isBlacklisted (env : Env) (m : PyModule) : Bool :=
  (blacklistFiles ++ env.blacklistModules).contains m.basename
  || (blacklistFiles ++ env.blacklistModules).contains m.name
  || blacklistPatterns.any (fun pat => globMatch pat.data m.basename.data)

def extensionMsg : String :=
  "Official Ansible modules must have a .py extension for python modules or a .ps1 for powershell modules"

/-- The error appended when the artifact has neither recognised extension;
the same condition sets `_python_module_override`. -/
def extensionErrors (m : PyModule) : List String :=
  if !pyExt m && !ps1Ext m then [extensionMsg] else []

/-- `self._python_module()` for the whole run: the `.py` extension, or the
forced override installed for unrecognised extensions. -/
def pythonKind (m : PyModule) : Bool := pyExt m || (!pyExt m && !ps1Ext m)

structure Report where
  errors : List String
  warnings : List String
  traces : Nat
deriving DecidableEq, Repr

def syntaxErrorMsg : String := "Python SyntaxError while parsing module"

/-! `ModuleValidator.validate` is embedded below as `validate`, with the
accumulating `self.errors`, `self.warnings` and the trace count assembled in
execution order.

Faithfulness notes:
* on a parse failure of a python-kind artifact the method returns
  immediately after the syntax error and the compile trace, so nothing else
  (including the raw-text license-header and interpreter checks) runs; the
  secondary `compile` call necessarily fails for text `ast.parse` rejected,
  contributing exactly one trace;
* `_find_main_call` extends `self.ast.body` in place, so
  `_find_module_utils`, `_find_has_import` and `_find_redeclarations`
  receive `newBody` (the original body followed by the `__name__` guard
  bodies);
* the second `_just_docs()` call (guarding the interpreter check) runs on
  the possibly extended body; its value cannot differ from the first call,
  because the body is only extended when it already contains a non-assign
  `if` statement, so the model reuses `justDocs m.astOpt`. -/

/-- The rule-engine battery (`_check_for_sys_exit` through
`_find_redeclarations`), run when the artifact is python-kind and not
docs-only. -/
def batteryReport (env : Env) (m : PyModule) : Report :=
  if pythonKind m && !justDocs m.astOpt then
    match m.astOpt with
    | some body =>
        let mc := findMainCall (pySplitlines m.text).length body
        ⟨checkForSysExit m.text ++ findRequestsImport body ++ mc.errors
          ++ findModuleUtils m.basename mc.newBody mc.mainLineno
          ++ checkForTabs m.text,
         findJsonImport body ++ findHasImport mc.newBody
          ++ findRedeclarations env mc.newBody,
         0⟩
    | none => ⟨[], [], 0⟩
  else ⟨[], [], 0⟩

/-- The non-aborting tail of `validate` (everything after the parse-failure
early return). -/
def validateChecks (env : Env) (m : PyModule) : Report :=
  ⟨extensionErrors m
    ++ (if pythonKind m then env.docsErrors else [])
    ++ (batteryReport env m).errors
    ++ (if ps1Ext m then
          findPsReplacers env.replacerWindows m.text ++ findPsDocsPyFile env m.basename
        else [])
    ++ checkForGpl3Header m.text
    ++ (if !justDocs m.astOpt then checkInterpreter (ps1Ext m) m.text else []),
   (if pythonKind m then env.docsWarnings else []) ++ (batteryReport env m).warnings,
   if pythonKind m then env.docsTraces else 0⟩

def validate (env : Env) (m : PyModule) : Report :=
  if isBlacklisted env m then ⟨[], [], 0⟩
  else if pythonKind m && m.astOpt.isNone then
    ⟨extensionErrors m ++ [syntaxErrorMsg], [], 1⟩
  else validateChecks env m

/-! ## Report and exit status -/

/-- `Validator.report`: `ret` receives a `1` for every error; the warning
loop prints but appends nothing (the `ret.append(1)` there is commented
out).  The return value is `len(ret)`. -/
def reportReturn (r : Report) (warnings : Bool) : Nat :=
  let ret : List Nat := r.errors.foldl (fun acc _ => acc ++ [1]) []
  let ret := if warnings then ret ++ pyFold (fun _ => ([] : List Nat)) r.warnings else ret
  ret.length

/-- `main`: `exit.append(mv.report(args.warnings))` per validated artifact,
then `sys.exit(sum(exit))`. -/
def exitStatus (reports : List Report) (warnings : Bool) : Nat :=
  ((reports.foldl (fun acc r => acc ++ [reportReturn r warnings]) []).foldl (· + ·) 0)

/-! ## Version policy -/

def versionNotValidMsg (v : String) : String :=
  "version_added is not a valid version number: " ++ pyRepr v

def versionShouldBeMsg (shouldBe : String) (current : Version) : String :=
  "version_added should be " ++ shouldBe ++ ". Currently " ++ strictVersionStr current

/-- `_check_version_added`.  Returns `none` for the uncaught `ValueError`
raised when the release line itself does not parse as a strict version
(`StrictVersion(should_be)` is outside any `try`). -/
def checkVersionAdded (env : Env) (name : String) (doc : Option String) :
    Option (List String) :=
  if env.hasPlugin name then some []
  else
    let vaRaw := doc.getD "0.0"
    match parseStrictVersion vaRaw with
    | none => some [versionNotValidMsg vaRaw]
    | some versionAdded =>
        let shouldBe := versionPrefix2 env.ansibleVersion
        match parseStrictVersion shouldBe with
        | none => none
        | some strictAnsible =>
            if ltV versionAdded strictAnsible || ltV strictAnsible versionAdded then
              some [versionShouldBeMsg shouldBe versionAdded]
            else some []

def optionNotValidMsg (option v : String) : String :=
  "version_added for new option (" ++ option ++ ") is not a valid version number: "
    ++ pyRepr v

def optionShouldBeMsg (option shouldBe : String) (current : Version) : String :=
  "version_added for new option (" ++ option ++ ") should be " ++ shouldBe
    ++ ". Currently " ++ strictVersionStr current

/-- One iteration of the option loop of `_check_for_new_args`: an option of
the current document, with the previously published option mapping, the
release line and the published document version.  `existing_options.get`
feeds Python truthiness, so an option is "new" both when absent and when its
published value is falsy. -/
def newArgOptionErrors (shouldBe : String) (strictAnsible modVersionAdded : Version)
    (existingOptions : List (String × Bool)) (option : String)
    (detailsVersionAdded : Option String) : List String :=
  let isNew := !((existingOptions.lookup option).getD false)
  if !isNew then []
  else
    let vaRaw := detailsVersionAdded.getD "0.0"
    match parseStrictVersion vaRaw with
    | none => [optionNotValidMsg option vaRaw]
    | some versionAdded =>
        if strictAnsible ≠ modVersionAdded ∧
            (ltV versionAdded strictAnsible || ltV strictAnsible versionAdded) = true then
          [optionShouldBeMsg option shouldBe versionAdded]
        else []

/-- The current document as `_check_for_new_args` and `_check_version_added`
read it: the optional `version_added` entry, the `options` mapping (option
name to its optional `version_added`), and the
`extends_documentation_fragment` entry read in the `AssertionError`
handler. -/
structure PDoc where
  versionAdded : Option String
  options : List (String × Option String)
  extendsFragment : String

/-- `_check_for_new_args`.  The result is the appended error list together
with the number of captured traces; `none` models the uncaught `ValueError`
from `StrictVersion(should_be)`.  A malformed published `version_added`
falls back to `StrictVersion("0.0")`. -/
def checkForNewArgs (env : Env) (name : String) (doc : PDoc) :
    Option (List String × Nat) :=
  if !env.hasPlugin name then some ([], 0)
  else
    match env.fetchExisting name with
    | Fetch.assertFail =>
        some (["Existing DOCUMENTATION fragment missing: " ++ doc.extendsFragment], 0)
    | Fetch.otherFail =>
        some (["Unknown existing DOCUMENTATION error, see TRACE"], 1)
    | Fetch.found exVersionAdded exOptions =>
        let modVersionAdded :=
          (parseStrictVersion (exVersionAdded.getD "0.0")).getD (0, 0, 0)
        let shouldBe := versionPrefix2 env.ansibleVersion
        match parseStrictVersion shouldBe with
        | none => none
        | some strictAnsible =>
            some
              (pyFold
                (fun p =>
                  newArgOptionErrors shouldBe strictAnsible modVersionAdded
                    exOptions p.1 p.2)
                doc.options,
               0)

/-! ## Concrete instances for witnesses and counterexamples -/

/-- A concrete environment: an empty module blacklist, release line `2.3`,
a registry that knows the single module `ping`, and an empty documentation
delta. -/
def sampleEnv : Env :=
  { blacklistModules := []
    ansibleVersion := "2.3.0"
    hasPlugin := fun n => n == "ping"
    fetchExisting := fun _ => Fetch.found (some "2.1") [("state", true)]
    replacerWindows := "WINDOWS_REPLACER".data
    psDocPyFileExists := true
    findGlobals := fun _ => []
    basicReserved := []
    docsErrors := []
    docsWarnings := []
    docsTraces := 0 }

/-- A python module whose text failed to parse (`self.ast is None`) and whose
text contains neither the license marker nor an interpreter line. -/
def brokenPyModule : PyModule :=
  { path := "library/net/fetch.py".data
    basename := "fetch.py"
    name := "fetch"
    text := "x = (".data
    astOpt := none }

/-- A powershell-kind module whose text lacks the license markers. -/
def psModuleNoLicense : PyModule :=
  { path := "library/win/win_copy.ps1".data
    basename := "win_copy.ps1"
    name := "win_copy"
    text := "#!powershell\nWANT_JSON\n".data
    astOpt := none }

/-- A docs-only python module: every top-level statement is an assignment. -/
def docsOnlyModule : PyModule :=
  { path := "library/docfrag.py".data
    basename := "docfrag.py"
    name := "docfrag"
    text := "DOCUMENTATION = 1\n".data
    astOpt := some [Stmt.assign ["DOCUMENTATION"] "d" 1,
                    Stmt.assign ["EXAMPLES"] "\ne" 4,
                    Stmt.assign ["RETURN"] "\nr" 7] }

/-- Build a parsed python module named `mod.py` with empty text around a
given AST body. -/
def mkPyModule (body : List Stmt) : PyModule :=
  { path := "library/mod.py".data
    basename := "mod.py"
    name := "mod"
    text := []
    astOpt := some body }

/-! ## Helper lemmas -/

theorem isPrefixOf_char_spec :
    ∀ (p l : List Char), p.isPrefixOf l = true ↔ ∃ t, l = p ++ t := by
  intro p
  induction p with
  | nil => intro l; simp [List.isPrefixOf]
  | cons c cs ih =>
      intro l
      cases l with
      | nil => simp [List.isPrefixOf]
      | cons a as =>
          simp only [List.isPrefixOf, Bool.and_eq_true, beq_iff_eq, ih,
            List.cons_append, List.cons.injEq]
          constructor
          · rintro ⟨rfl, t, rfl⟩; exact ⟨t, rfl, rfl⟩
          · rintro ⟨t, rfl, rfl⟩; exact ⟨rfl, t, rfl⟩

theorem strData_append (s t : String) : (s ++ t).data = s.data ++ t.data := by
  cases s; cases t; rfl

theorem pyStartsWith_self_append (p rest : String) :
    pyStartsWith p (p ++ rest) = true := by
  rw [pyStartsWith, strData_append, isPrefixOf_char_spec]
  exact ⟨rest.data, rfl⟩

/-- A path cannot end both in `.py` and in `.ps1`. -/
theorem pyExt_not_ps1Ext (m : PyModule) (h : pyExt m = true) : ps1Ext m = false := by
  cases hps : ps1Ext m with
  | false => rfl
  | true =>
      exfalso
      rw [pyExt, List.isSuffixOf, isPrefixOf_char_spec] at h
      rw [ps1Ext, List.isSuffixOf, isPrefixOf_char_spec] at hps
      obtain ⟨t, ht⟩ := h
      obtain ⟨u, hu⟩ := hps
      have e1 : ".py".data.reverse = ['y', 'p', '.'] := by decide
      have e2 : ".ps1".data.reverse = ['1', 's', 'p', '.'] := by decide
      rw [e1] at ht
      rw [e2] at hu
      rw [ht] at hu
      simp at hu

/-- Elements of a `pyFold` whose step yields a constant singleton under a
test, counted: one output per passing element. -/
theorem pyFold_if_singleton_length (p : α → Bool) (g : α → β) :
    ∀ l : List α,
      (pyFold (fun x => if p x then [g x] else []) l).length = (l.filter p).length := by
  intro l
  induction l with
  | nil => simp [pyFold]
  | cons x xs ih =>
      rw [pyFold_cons]
      cases hx : p x <;> simp [List.filter_cons, hx, ih]

theorem enumFrom_filter_snd_length (p : α → Bool) :
    ∀ (l : List α) (n : Nat),
      ((List.enumFrom n l).filter (fun q => p q.2)).length = (l.filter p).length := by
  intro l
  induction l with
  | nil => intro n; simp
  | cons x xs ih =>
      intro n
      simp only [List.enumFrom, List.filter_cons]
      cases hx : p x <;> simp [hx, ih]

theorem getLastD_mem : ∀ (l : List Nat) (d : Nat), l = [] ∨ l.getLastD d ∈ l := by
  intro l
  induction l with
  | nil => intro d; exact Or.inl rfl
  | cons a as ih =>
      intro d
      right
      rw [List.getLastD_cons]
      rcases ih a with h | h
      · subst h; simp
      · exact List.mem_cons_of_mem a h

theorem pyFold_const_nil (l : List α) : pyFold (fun _ => ([] : List β)) l = [] := by
  induction l with
  | nil => rfl
  | cons x xs ih => rw [pyFold_cons, ih]; rfl

theorem pyFold_const_singleton_length (b : β) (l : List α) :
    (pyFold (fun _ => [b]) l).length = l.length := by
  induction l with
  | nil => rfl
  | cons x xs ih => rw [pyFold_cons]; simp [ih]

theorem foldl_add_nat (l : List Nat) (a : Nat) :
    l.foldl (· + ·) a = a + l.foldl (· + ·) 0 := by
  induction l generalizing a with
  | nil => simp
  | cons y ys ih => rw [List.foldl_cons, List.foldl_cons, ih (a + y), ih (0 + y)]; omega

theorem reportReturn_eq_length (r : Report) (w : Bool) :
    reportReturn r w = r.errors.length := by
  rw [reportReturn]
  have hret : r.errors.foldl (fun acc _ => acc ++ [1]) [] = pyFold (fun _ => [1]) r.errors :=
    foldl_append_init (fun _ => [1]) r.errors []
  cases w <;>
    simp [hret, pyFold_const_nil, pyFold_const_singleton_length]

/-! ## C1 -/

/-- C1 counterexample: a report with two errors contributes `2` to the exit
status, not the `1` the claim assigns to any report with at least one
error. -/
theorem c1_exit_contribution_counterexample :
    reportReturn ⟨["a", "b"], [], 0⟩ true = 2 ∧
      exitStatus [⟨["a", "b"], [], 0⟩] true = 2 ∧
      reportReturn ⟨["a", "b"], [], 0⟩ true ≠ 1 := by
  decide

/-- C1 (amended): each validated artifact contributes the NUMBER of errors in
its report to the process exit status (`report` appends a `1` per error and
returns the length), warnings never contribute, and the exit status is the
sum of these per-artifact error counts. -/
theorem c1_exit_status_sums_error_counts (r : Report) (w : Bool) (reports : List Report) :
    reportReturn r w = r.errors.length ∧
      exitStatus reports w = (reports.map (fun r₂ => r₂.errors.length)).sum := by
  refine ⟨reportReturn_eq_length r w, ?_⟩
  rw [exitStatus]
  rw [foldl_append_init (fun r₂ => [reportReturn r₂ w]) reports []]
  rw [List.nil_append]
  induction reports with
  | nil => simp [pyFold]
  | cons x xs ih =>
      rw [pyFold_cons]
      simp only [List.map_cons, List.sum_cons, ← ih]
      rw [List.singleton_append, List.foldl_cons, Nat.zero_add,
        foldl_add_nat, reportReturn_eq_length]

/-! ## C7 -/

/-- C7 counterexample: the extractor strips the first character of the
`EXAMPLES` literal, not a leading newline of the `RETURN` literal — a
`RETURN` block starting with a newline is recorded verbatim, and an
`EXAMPLES` block loses its first character even when it is not a newline. -/
theorem c7_docs_strip_counterexample :
    (getDocs [Stmt.assign ["EXAMPLES"] "abc" 2,
              Stmt.assign ["RETURN"] "\nfoo" 3]).returns.value = some "\nfoo" ∧
    (getDocs [Stmt.assign ["EXAMPLES"] "abc" 2,
              Stmt.assign ["RETURN"] "\nfoo" 3]).examples.value = some "bc" ∧
    (getDocs [Stmt.assign ["EXAMPLES"] "abc" 2,
              Stmt.assign ["RETURN"] "\nfoo" 3]).returns.value ≠ some "foo" ∧
    (getDocs [Stmt.assign ["EXAMPLES"] "abc" 2,
              Stmt.assign ["RETURN"] "\nfoo" 3]).examples.value ≠ some "abc" := by
  decide

/-- C7 (amended): the document-block extractor drops exactly the first
character of the usage-examples literal (`EXAMPLES`, via `s[1:]`, whatever
that character is), records the structured-documentation and return-value
literals unmodified, and records the line number of each matched
assignment. -/
theorem c7_doc_block_extraction (b : List Stmt) (s t u : String) (ln₁ ln₂ ln₃ : Nat) :
    getDocs (b ++ [Stmt.assign ["DOCUMENTATION"] s ln₁,
                   Stmt.assign ["EXAMPLES"] t ln₂,
                   Stmt.assign ["RETURN"] u ln₃])
      = ⟨⟨some s, ln₁⟩, ⟨some (strTail t), ln₂⟩, ⟨some u, ln₃⟩⟩ := by
  rw [getDocs, List.foldl_append, ← getDocs]
  rfl

/-! ## C2 -/

/-- C2 counterexample: a non-blacklisted python artifact whose text
`"x = ("` fails to parse gets ONLY the syntax error; the license-header and
interpreter-line errors the claim says still run are absent even though the
raw text lacks both the license marker and the interpreter line. -/
theorem c2_parse_failure_counterexample :
    validate sampleEnv brokenPyModule = ⟨[syntaxErrorMsg], [], 1⟩ ∧
      "GPLv3 license header not found" ∉ (validate sampleEnv brokenPyModule).errors ∧
      "Interpreter line is not \"#!/usr/bin/python\"" ∉
        (validate sampleEnv brokenPyModule).errors := by
  decide

/-- C2 (amended): when a primary-kind (python) artifact fails to parse,
validation emits the syntax-error message and one captured compile trace and
then aborts ALL further checks for the artifact — including the raw-text
license-header and interpreter-line checks, which do NOT run (the method
returns before reaching them). -/
theorem c2_parse_failure_aborts_everything (env : Env) (m : PyModule)
    (hb : isBlacklisted env m = false) (hk : pythonKind m = true)
    (ha : m.astOpt = none) :
    validate env m = ⟨extensionErrors m ++ [syntaxErrorMsg], [], 1⟩ := by
  simp [validate, hb, hk, ha]

/-- Witness for C2 at a concrete unparsable module. -/
theorem c2_parse_failure_aborts_everything_witness :
    validate sampleEnv brokenPyModule =
      ⟨extensionErrors brokenPyModule ++ [syntaxErrorMsg], [], 1⟩ :=
  c2_parse_failure_aborts_everything sampleEnv brokenPyModule (by decide) (by decide) rfl

/-! ## C8 -/

/-- C8 counterexample: the license check is NOT independent of parse success.
A non-blacklisted python artifact that fails to parse and whose text lacks
both license marker substrings produces no license-header error, because
`validate` returns before `_check_for_gpl3_header`. -/
theorem c8_license_counterexample :
    containsSub "GNU General Public License".data brokenPyModule.text = false ∧
      containsSub "version 3".data brokenPyModule.text = false ∧
      isBlacklisted sampleEnv brokenPyModule = false ∧
      "GPLv3 license header not found" ∉ (validate sampleEnv brokenPyModule).errors := by
  decide

/-- C8 (amended): for every non-blacklisted artifact of any module kind
whose validation is not cut short by a python parse failure, the
license-header check runs (its output is a segment of the final error list)
and reports the error exactly when both marker substrings are absent from
the raw text.  A python-kind artifact that fails to parse skips the check
entirely. -/
theorem c8_license_header_check (env : Env) (m : PyModule)
    (hb : isBlacklisted env m = false)
    (hreach : pythonKind m = true → m.astOpt ≠ none) :
    (∃ A B, (validate env m).errors = A ++ checkForGpl3Header m.text ++ B) ∧
      (containsSub "GNU General Public License".data m.text = false →
        containsSub "version 3".data m.text = false →
        checkForGpl3Header m.text = ["GPLv3 license header not found"]) ∧
      (containsSub "GNU General Public License".data m.text = true ∨
        containsSub "version 3".data m.text = true →
        checkForGpl3Header m.text = []) := by
  refine ⟨?_, ?_, ?_⟩
  · have hcond : (pythonKind m && m.astOpt.isNone) = false := by
      cases hk : pythonKind m with
      | false => rfl
      | true =>
          have := hreach hk
          cases hast : m.astOpt with
          | none => exact absurd hast this
          | some b => simp [hast]
    refine ⟨extensionErrors m
        ++ ((if pythonKind m then env.docsErrors else [])
        ++ ((batteryReport env m).errors
        ++ (if ps1Ext m then
              findPsReplacers env.replacerWindows m.text ++ findPsDocsPyFile env m.basename
            else []))),
      (if !justDocs m.astOpt then checkInterpreter (ps1Ext m) m.text else []), ?_⟩
    simp [validate, hb, hcond, validateChecks, List.append_assoc]
  · intro h1 h2
    simp [checkForGpl3Header, h1, h2]
  · intro h
    rcases h with h | h <;> simp [checkForGpl3Header, h]

/-- Witness for C8: a concrete powershell-kind module lacking the license
markers, with the theorem applied to it. -/
theorem c8_license_header_check_witness :
    (∃ A B, (validate sampleEnv psModuleNoLicense).errors
        = A ++ checkForGpl3Header psModuleNoLicense.text ++ B) ∧
      (containsSub "GNU General Public License".data psModuleNoLicense.text = false →
        containsSub "version 3".data psModuleNoLicense.text = false →
        checkForGpl3Header psModuleNoLicense.text = ["GPLv3 license header not found"]) ∧
      (containsSub "GNU General Public License".data psModuleNoLicense.text = true ∨
        containsSub "version 3".data psModuleNoLicense.text = true →
        checkForGpl3Header psModuleNoLicense.text = []) :=
  c8_license_header_check sampleEnv psModuleNoLicense (by decide)
    (fun h => absurd h (by decide))

/-! ## C10 -/

/-- C10: a python artifact that parses and whose top-level statements are all
assignments (a docs-only file) runs only the documentation validation and
the license-header check: the report is exactly the `_validate_docs` delta
plus the license-header result, with no battery, powershell or
interpreter-line contribution. -/
theorem c10_docs_only_file (env : Env) (m : PyModule) (body : List Stmt)
    (hb : isBlacklisted env m = false) (hpy : pyExt m = true)
    (ha : m.astOpt = some body) (hall : body.all isAssignB = true) :
    validate env m =
      ⟨env.docsErrors ++ checkForGpl3Header m.text, env.docsWarnings, env.docsTraces⟩ := by
  have hps : ps1Ext m = false := pyExt_not_ps1Ext m hpy
  have hk : pythonKind m = true := by simp [pythonKind, hpy]
  have hjd : justDocs (some body) = true := by simp [justDocs, hall]
  simp [validate, hb, hk, ha, validateChecks, batteryReport, hjd, hps,
    extensionErrors, hpy]

/-- Witness for C10 at a concrete docs-only module. -/
theorem c10_docs_only_file_witness :
    validate sampleEnv docsOnlyModule =
      ⟨sampleEnv.docsErrors ++ checkForGpl3Header docsOnlyModule.text,
       sampleEnv.docsWarnings, sampleEnv.docsTraces⟩ :=
  c10_docs_only_file sampleEnv docsOnlyModule
    [Stmt.assign ["DOCUMENTATION"] "d" 1, Stmt.assign ["EXAMPLES"] "\ne" 4,
     Stmt.assign ["RETURN"] "\nr" 7]
    (by decide) (by decide) rfl (by decide)

/-! ## C4 -/

/-- C4: for a new artifact (the registry lookup reports it absent), a
document version tag that parses but differs from the current release line
yields exactly one error stating the expected and the actual version (for
release line `2.3` and tag `2.2`: `version_added should be 2.3. Currently
2.2`); a tag that does not parse yields exactly one error reporting the
malformed value; a tag equal to the release line yields no error. -/
theorem c4_new_module_version_added (env : Env) (name : String) (doc : Option String)
    (sv : Version)
    (hnew : env.hasPlugin name = false)
    (hsv : parseStrictVersion (versionPrefix2 env.ansibleVersion) = some sv) :
    (parseStrictVersion (doc.getD "0.0") = none →
      checkVersionAdded env name doc = some [versionNotValidMsg (doc.getD "0.0")]) ∧
    (∀ v, parseStrictVersion (doc.getD "0.0") = some v →
      (v ≠ sv → checkVersionAdded env name doc
          = some [versionShouldBeMsg (versionPrefix2 env.ansibleVersion) v]) ∧
      (v = sv → checkVersionAdded env name doc = some [])) := by
  constructor
  · intro hparse
    simp [checkVersionAdded, hnew, hparse]
  · intro v hparse
    constructor
    · intro hne
      have hlt : (ltV v sv || ltV sv v) = true := (ltV_or_symm_iff_ne v sv).mpr hne
      simp [checkVersionAdded, hnew, hparse, hsv, hlt]
    · intro heq
      subst heq
      simp [checkVersionAdded, hnew, hparse, hsv, ltV_irrefl]

/-- Witness for C4: release line `2.3`, new-module tag `2.2`. -/
theorem c4_new_module_version_added_witness :
    checkVersionAdded sampleEnv "newmod" (some "2.2")
      = some [versionShouldBeMsg (versionPrefix2 sampleEnv.ansibleVersion) (2, 2, 0)] :=
  ((c4_new_module_version_added sampleEnv "newmod" (some "2.2") (2, 3, 0)
      (by decide) (by decide)).2 (2, 2, 0) (by decide)).1 (by decide)

/-! ## C3 -/

/-- C3: for an existing artifact whose previously published document was
fetched, and an option present in the current document but absent from the
published one: a malformed version tag yields exactly the one error naming
the option; a tag whose parsed value equals the current release line yields
no error; a parsed value differing from the release line (including the
`0.0` default of a missing tag when the release line is not `0.0`) yields
exactly one error naming the option — unless the version tag of the published document itself
version tag equals the release line, in which case the mismatch check is
skipped.  The first conjunct ties the per-option kernel to
`checkForNewArgs` itself. -/
theorem c3_new_option_version_added (env : Env) (name : String) (doc : PDoc)
    (exV : Option String) (exOpts : List (String × Bool)) (sv modV : Version)
    (hplug : env.hasPlugin name = true)
    (hfetch : env.fetchExisting name = Fetch.found exV exOpts)
    (hsv : parseStrictVersion (versionPrefix2 env.ansibleVersion) = some sv)
    (hmodV : modV = (parseStrictVersion (exV.getD "0.0")).getD (0, 0, 0))
    (opt : String) (det : Option String)
    (habsent : exOpts.lookup opt = none) :
    checkForNewArgs env name doc =
        some (pyFold
            (fun p =>
              newArgOptionErrors (versionPrefix2 env.ansibleVersion) sv modV exOpts p.1 p.2)
            doc.options, 0) ∧
      (parseStrictVersion (det.getD "0.0") = none →
        newArgOptionErrors (versionPrefix2 env.ansibleVersion) sv modV exOpts opt det
          = [optionNotValidMsg opt (det.getD "0.0")]) ∧
      (∀ v, parseStrictVersion (det.getD "0.0") = some v →
        (v = sv →
          newArgOptionErrors (versionPrefix2 env.ansibleVersion) sv modV exOpts opt det
            = []) ∧
        (v ≠ sv → modV = sv →
          newArgOptionErrors (versionPrefix2 env.ansibleVersion) sv modV exOpts opt det
            = []) ∧
        (v ≠ sv → modV ≠ sv →
          newArgOptionErrors (versionPrefix2 env.ansibleVersion) sv modV exOpts opt det
            = [optionShouldBeMsg opt (versionPrefix2 env.ansibleVersion) v])) := by
  refine ⟨?_, ?_, ?_⟩
  · subst hmodV
    simp [checkForNewArgs, hplug, hfetch, hsv]
  · intro hparse
    simp [newArgOptionErrors, habsent, hparse]
  · intro v hparse
    refine ⟨?_, ?_, ?_⟩
    · intro heq
      subst heq
      simp [newArgOptionErrors, habsent, hparse, ltV_irrefl]
    · intro _ hskip
      subst hskip
      simp [newArgOptionErrors, habsent, hparse]
    · intro hne hnoskip
      have hlt : (ltV v sv || ltV sv v) = true := (ltV_or_symm_iff_ne v sv).mpr hne
      have hsmod : sv ≠ modV := fun h => hnoskip h.symm
      simp [newArgOptionErrors, habsent, hparse, hlt, hsmod]

/-- Witness for C3: existing module `ping`, published version `2.1`, release
line `2.3`, new option `newopt` with no version tag. -/
theorem c3_new_option_version_added_witness :
    newArgOptionErrors (versionPrefix2 sampleEnv.ansibleVersion) (2, 3, 0) (2, 1, 0)
        [("state", true)] "newopt" none
      = [optionShouldBeMsg "newopt" (versionPrefix2 sampleEnv.ansibleVersion) (0, 0, 0)] :=
  (((c3_new_option_version_added sampleEnv "ping" ⟨some "2.3", [("newopt", none)], "frag"⟩
        (some "2.1") [("state", true)] (2, 3, 0) (2, 1, 0) (by decide) rfl (by decide)
        (by decide) "newopt" none (by decide)).2.2 (0, 0, 0) (by decide)).2.2
    (by decide) (by decide))

/-! ## C5 -/

/-- Wellformedness of `main()` call line numbers: Python AST line numbers
start at 1, and a line number 0 would be falsy in the `if not lineno`
test. -/
def mainWf : Stmt → Bool
  | Stmt.exprCall f ln => if f = some "main" then decide (ln ≠ 0) else true
  | _ => true

theorem mainLinenos_ne_zero {l : List Stmt} (hwf : l.all mainWf = true) :
    ∀ ln ∈ mainLinenos l, ln ≠ 0 := by
  intro ln hln
  obtain ⟨child, hchild, hmem⟩ := mem_pyFold.mp hln
  have hw := (List.all_eq_true.mp hwf) child hchild
  cases child with
  | exprCall f ln2 =>
      by_cases hf : f = some "main"
      · simp only [hf, if_pos] at hmem
        simp only [List.mem_singleton] at hmem
        subst hmem
        simpa [mainWf, hf] using hw
      · simp [hf] at hmem
  | assign a b c => simp at hmem
  | importStmt a b => simp at hmem
  | importFromStmt a b c => simp at hmem
  | tryExcept a b c => simp at hmem
  | ifStmt a b c => simp at hmem
  | exprOther a => simp at hmem
  | other a => simp at hmem

theorem mainLinenos_eq_nil_iff (l : List Stmt) :
    mainLinenos l = [] ↔ ∀ ln, Stmt.exprCall (some "main") ln ∉ l := by
  constructor
  · intro h ln hmem
    have hin : ln ∈ mainLinenos l := mem_pyFold.mpr ⟨_, hmem, by simp⟩
    rw [h] at hin
    exact absurd hin (List.not_mem_nil ln)
  · intro h
    by_contra hne
    obtain ⟨x, hx⟩ := List.exists_mem_of_ne_nil _ hne
    obtain ⟨child, hchild, hmem⟩ := mem_pyFold.mp hx
    cases child with
    | exprCall f ln2 =>
        by_cases hf : f = some "main"
        · subst hf; exact h ln2 hchild
        · simp [hf] at hmem
    | assign a b c => simp at hmem
    | importStmt a b => simp at hmem
    | importFromStmt a b c => simp at hmem
    | tryExcept a b c => simp at hmem
    | ifStmt a b c => simp at hmem
    | exprOther a => simp at hmem
    | other a => simp at hmem

/-- C5 counterexample: a two-line module whose `main()` call on line 1 is
followed by another statement on line 2 — the call is present and is NOT the
last statement, yet no error at all is produced (the source only fires for
`lineno < length - 1`). -/
theorem c5_main_call_counterexample :
    (findMainCall 2 [Stmt.exprCall (some "main") 1, Stmt.other 2]).errors = [] ∧
      mainNotLastMsg ∉
        (findMainCall 2 [Stmt.exprCall (some "main") 1, Stmt.other 2]).errors := by
  constructor
  · rfl
  · intro h
    simp [findMainCall, ifBodies, mainLinenos, pyFold] at h

/-- C5 (amended): over the top-level statements extended with the `__name__`
guard bodies, the `not the last line` error is produced exactly when some
`main()` call sits on a line strictly below `length - 1` — i.e. with at
least two lines after it, so a call on the last or the second-to-last line
of the file produces no error even when it is not the last statement; the
absence error is produced exactly when no `main()` call exists at all
(assuming the Python invariant of nonzero line numbers). -/
theorem c5_main_call_position (n : Nat) (body : List Stmt)
    (hwf : (body ++ ifBodies body).all mainWf = true) :
    (mainNotLastMsg ∈ (findMainCall n body).errors ↔
      ∃ ln, Stmt.exprCall (some "main") ln ∈ body ++ ifBodies body ∧ ln < n - 1) ∧
    ("Did not find a call to main" ∈ (findMainCall n body).errors ↔
      ∀ ln, Stmt.exprCall (some "main") ln ∉ body ++ ifBodies body) := by
  have habs : ∀ x ∈ (if (mainLinenos (body ++ ifBodies body)).getLastD 0 = 0 then
      ["Did not find a call to main"] else []), x = "Did not find a call to main" := by
    intro x hx
    split at hx
    · simpa using hx
    · simp at hx
  have hloop : ∀ x ∈ pyFold
      (fun child =>
        match child with
        | Stmt.exprCall f ln =>
            if f = some "main" ∧ ln < n - 1 then [mainNotLastMsg] else []
        | _ => [])
      (body ++ ifBodies body), x = mainNotLastMsg := by
    intro x hx
    obtain ⟨child, _, hmem⟩ := mem_pyFold.mp hx
    cases child with
    | exprCall f ln =>
        by_cases hc : f = some "main" ∧ ln < n - 1
        · simp [hc] at hmem; exact hmem
        · simp [hc] at hmem
    | assign a b c => simp at hmem
    | importStmt a b => simp at hmem
    | importFromStmt a b c => simp at hmem
    | tryExcept a b c => simp at hmem
    | ifStmt a b c => simp at hmem
    | exprOther a => simp at hmem
    | other a => simp at hmem
  have herr : (findMainCall n body).errors =
      pyFold
        (fun child =>
          match child with
          | Stmt.exprCall f ln =>
              if f = some "main" ∧ ln < n - 1 then [mainNotLastMsg] else []
          | _ => [])
        (body ++ ifBodies body)
      ++ (if (mainLinenos (body ++ ifBodies body)).getLastD 0 = 0 then
            ["Did not find a call to main"] else []) := rfl
  constructor
  · rw [herr, List.mem_append]
    constructor
    · rintro (h | h)
      · obtain ⟨child, hchild, hmem⟩ := mem_pyFold.mp h
        cases child with
        | exprCall f ln =>
            by_cases hc : f = some "main" ∧ ln < n - 1
            · exact ⟨ln, hc.1 ▸ hchild, hc.2⟩
            · simp [hc] at hmem
        | assign a b c => simp at hmem
        | importStmt a b => simp at hmem
        | importFromStmt a b c => simp at hmem
        | tryExcept a b c => simp at hmem
        | ifStmt a b c => simp at hmem
        | exprOther a => simp at hmem
        | other a => simp at hmem
      · have := habs _ h
        exact absurd this (by decide)
    · rintro ⟨ln, hmem, hlt⟩
      left
      exact mem_pyFold.mpr ⟨_, hmem, by simp [hlt]⟩
  · rw [herr, List.mem_append]
    rw [← mainLinenos_eq_nil_iff]
    constructor
    · rintro (h | h)
      · exact absurd (hloop _ h) (by decide)
      · by_cases hz : (mainLinenos (body ++ ifBodies body)).getLastD 0 = 0
        · rcases getLastD_mem (mainLinenos (body ++ ifBodies body)) 0 with hnil | hmem
          · exact hnil
          · rw [hz] at hmem
            exact absurd rfl (mainLinenos_ne_zero hwf 0 hmem)
        · rw [if_neg hz] at h
          exact absurd h (List.not_mem_nil _)
    · intro hnil
      right
      rw [hnil]
      simp

/-- Witness for C5: a call on line 1 of a five-line module followed by other
statements triggers the position error; its absence in an empty body
triggers the absence error. -/
theorem c5_main_call_position_witness :
    mainNotLastMsg ∈
      (findMainCall 5 [Stmt.exprCall (some "main") 1, Stmt.other 5]).errors :=
  (c5_main_call_position 5 [Stmt.exprCall (some "main") 1, Stmt.other 5]
      (by decide)).1.mpr ⟨1, by simp [ifBodies, pyFold], by decide⟩

/-! ## C6 -/

theorem mem_enumFrom_of_lt :
    ∀ (l : List α) (n i : Nat) (h : i < l.length),
      (n + i, l.get ⟨i, h⟩) ∈ List.enumFrom n l := by
  intro l
  induction l with
  | nil => intro n i h; simp at h
  | cons x xs ih =>
      intro n i h
      cases i with
      | zero => simp [List.enumFrom]
      | succ j =>
          have hj : j < xs.length := by simpa using h
          have hmem := ih (n + 1) j hj
          simp only [List.enumFrom, List.mem_cons]
          right
          have : n + (j + 1) = n + 1 + j := by omega
          rw [this]
          simpa using hmem

/-- C6 counterexample: a tab at 1-based column 1 of line 1 is reported as
`column 0` — the message carries the 0-based index of the tab, not the
1-based column the claim states. -/
theorem c6_tab_column_counterexample :
    checkForTabs "\tx".data = ["indentation contains tabs. line 1 column 0"] ∧
      "indentation contains tabs. line 1 column 1" ∉ checkForTabs "\tx".data := by
  decide

/-- C6 (amended): for every line of the artifact containing a tab character,
the check produces the message naming the 1-based line number and the
0-based index of the FIRST tab in that line (any tab fires the check, not
only indentation tabs), and the total number of indentation errors equals
the number of lines containing a tab, so tab-free lines contribute no
error. -/
theorem c6_tab_errors (text : List Char) (i : Nat)
    (h : i < (pySplitlines text).length) :
    (((pySplitlines text).get ⟨i, h⟩).contains '\t' = true →
      tabMsg (i + 1) (((pySplitlines text).get ⟨i, h⟩).findIdx (fun c => c = '\t'))
        ∈ checkForTabs text) ∧
    (checkForTabs text).length
      = ((pySplitlines text).filter (fun l => l.contains '\t')).length := by
  constructor
  · intro htab
    have hmem : (i, (pySplitlines text).get ⟨i, h⟩) ∈ (pySplitlines text).enum := by
      have := mem_enumFrom_of_lt (pySplitlines text) 0 i h
      simpa [List.enum] using this
    exact mem_pyFold.mpr
      ⟨_, hmem, by simp only [htab, eq_self_iff_true, if_true, List.mem_singleton]⟩
  · rw [checkForTabs]
    rw [pyFold_if_singleton_length (fun p : Nat × List Char => p.2.contains '\t')
      (fun p : Nat × List Char => tabMsg (p.1 + 1) (p.2.findIdx (fun c => c = '\t')))]
    rw [List.enum]
    exact enumFrom_filter_snd_length (fun l => l.contains '\t') (pySplitlines text) 0

/-- Witness for C6: the second line of `"a\n\tb"` holds a tab at index 0. -/
theorem c6_tab_errors_witness :
    tabMsg 2 0 ∈ checkForTabs "a\n\tb".data :=
  (c6_tab_errors "a\n\tb".data 1 (by decide)).1 (by decide)

/-! ## C9 -/

theorem ifBodies_append (a b : List Stmt) :
    ifBodies (a ++ b) = ifBodies a ++ ifBodies b :=
  pyFold_append _ a b

theorem ifBodies_guard_singleton (gb : List Stmt) (gln : Nat) :
    ifBodies [Stmt.ifStmt (some "__name__") gb gln] = gb := by
  rw [ifBodies, pyFold_cons]
  simp [pyFold]

theorem mem_findRequestsImport_eq {body : List Stmt} :
    ∀ x ∈ findRequestsImport body, x = requestsMsg := by
  intro x hx
  obtain ⟨child, _, hmem⟩ := mem_pyFold.mp hx
  cases child with
  | importStmt names ln =>
      obtain ⟨a, _, hmem2⟩ := mem_pyFold.mp hmem
      by_cases ha : a.name = "requests"
      · simp only [ha, if_pos, List.mem_singleton] at hmem2
        exact hmem2
      · simp [ha] at hmem2
  | tryExcept tb hb ln =>
      obtain ⟨g, _, hmem2⟩ := mem_pyFold.mp hmem
      cases g with
      | importStmt names ln2 =>
          obtain ⟨a, _, hmem3⟩ := mem_pyFold.mp hmem2
          by_cases ha : a.name = "requests"
          · simp only [ha, if_pos, List.mem_singleton] at hmem3
            exact hmem3
          · simp [ha] at hmem3
      | assign a b c => simp at hmem2
      | importFromStmt a b c => simp at hmem2
      | tryExcept a b c => simp at hmem2
      | ifStmt a b c => simp at hmem2
      | exprCall a b => simp at hmem2
      | exprOther a => simp at hmem2
      | other a => simp at hmem2
  | assign a b c => simp at hmem
  | importFromStmt a b c => simp at hmem
  | ifStmt a b c => simp at hmem
  | exprCall a b => simp at hmem
  | exprOther a => simp at hmem
  | other a => simp at hmem

theorem mem_findMainCall_errors {n : Nat} {body : List Stmt} :
    ∀ x ∈ (findMainCall n body).errors,
      x = mainNotLastMsg ∨ x = "Did not find a call to main" := by
  intro x hx
  have herr : (findMainCall n body).errors =
      pyFold
        (fun child =>
          match child with
          | Stmt.exprCall f ln =>
              if f = some "main" ∧ ln < n - 1 then [mainNotLastMsg] else []
          | _ => [])
        (body ++ ifBodies body)
      ++ (if (mainLinenos (body ++ ifBodies body)).getLastD 0 = 0 then
            ["Did not find a call to main"] else []) := rfl
  rw [herr, List.mem_append] at hx
  rcases hx with hx | hx
  · left
    obtain ⟨child, _, hmem⟩ := mem_pyFold.mp hx
    cases child with
    | exprCall f ln =>
        by_cases hc : f = some "main" ∧ ln < n - 1
        · simp [hc] at hmem
          exact hmem
        · simp [hc] at hmem
    | assign a b c => simp at hmem
    | importStmt a b => simp at hmem
    | importFromStmt a b c => simp at hmem
    | tryExcept a b c => simp at hmem
    | ifStmt a b c => simp at hmem
    | exprOther a => simp at hmem
    | other a => simp at hmem
  · right
    split at hx
    · simpa using hx
    · simp at hx

theorem mem_moduleUtilsChildErrors_shape {bl : Bool} {mn : Nat} {child : Stmt} :
    ∀ x ∈ moduleUtilsChildErrors bl mn child,
      ∃ module suffix,
        pyStartsWith "ansible.module_utils." module = true ∧ x = module ++ suffix := by
  intro x hx
  cases child with
  | importFromStmt module names ln =>
      rw [moduleUtilsChildErrors] at hx
      cases hp : pyStartsWith "ansible.module_utils." module with
      | true =>
          rw [hp] at hx
          simp only [if_true, List.mem_append] at hx
          rcases hx with ((hx | hx) | hx) | hx
          · split at hx
            · refine ⟨module, " import not near call to main()", hp, ?_⟩
              simpa using hx
            · simp at hx
          · split at hx
            · refine ⟨module, ": not a \"from\" import\"", hp, ?_⟩
              simpa using hx
            · simp at hx
          · obtain ⟨a, _, hmem⟩ := mem_pyFold.mp hx
            split at hmem
            · refine ⟨module, ": did not import \"*\"", hp, ?_⟩
              simpa using hmem
            · simp at hmem
          · split at hx
            · refine ⟨module, ": did not import \"*\"", hp, ?_⟩
              simpa using hx
            · simp at hx
      | false =>
          rw [hp] at hx
          simp at hx
  | assign a b c => simp [moduleUtilsChildErrors] at hx
  | importStmt a b => simp [moduleUtilsChildErrors] at hx
  | tryExcept a b c => simp [moduleUtilsChildErrors] at hx
  | ifStmt a b c => simp [moduleUtilsChildErrors] at hx
  | exprCall a b => simp [moduleUtilsChildErrors] at hx
  | exprOther a => simp [moduleUtilsChildErrors] at hx
  | other a => simp [moduleUtilsChildErrors] at hx

theorem module_utils_prefixed_ne_absence (module suffix : String)
    (hp : pyStartsWith "ansible.module_utils." module = true) :
    module ++ suffix ≠ "Did not find a module_utils import" := by
  intro heq
  rw [pyStartsWith, isPrefixOf_char_spec] at hp
  obtain ⟨t, ht⟩ := hp
  have hdata := congrArg String.data heq
  rw [strData_append, ht] at hdata
  have e1 : "ansible.module_utils.".data
      = 'a' :: "nsible.module_utils.".data := rfl
  have e2 : "Did not find a module_utils import".data
      = 'D' :: "id not find a module_utils import".data := rfl
  rw [e1, e2] at hdata
  simp only [List.cons_append, List.cons.injEq] at hdata
  exact absurd hdata.1 (by decide)

theorem isEmpty_false_of_mem {a : α} {l : List α} (h : a ∈ l) : l.isEmpty = false := by
  cases l with
  | nil => exact absurd h (List.not_mem_nil a)
  | cons x xs => rfl

theorem absence_not_mem_findModuleUtils {objectName : String} {body : List Stmt}
    {mn : Nat} {module : String} {names : List Alias} {ln : Nat}
    (hmem : Stmt.importFromStmt module names ln ∈ body)
    (hp : pyStartsWith "ansible.module_utils." module = true) :
    "Did not find a module_utils import" ∉ findModuleUtils objectName body mn := by
  intro hx
  rw [findModuleUtils, List.mem_append] at hx
  have hln : ln ∈ moduleUtilsLinenos body :=
    mem_pyFold.mpr ⟨_, hmem, by simp [hp]⟩
  rcases hx with hx | hx
  · obtain ⟨child, _, hmem2⟩ := mem_pyFold.mp hx
    obtain ⟨m₂, s₂, hp₂, he₂⟩ := mem_moduleUtilsChildErrors_shape _ hmem2
    exact module_utils_prefixed_ne_absence m₂ s₂ hp₂ he₂.symm
  · rw [isEmpty_false_of_mem hln] at hx
    simp at hx

/-- C9: the main-call search hands the statement list extended in place with
the `__name__` guard bodies to every later AST check of the same run:
`newBody = body ++ ifBodies body`, and for a module whose `module_utils`
wildcard import and try/except block live ONLY inside the `__name__` guard,
the module-utils search still finds the import (no `Did not find a
module_utils import` error) and the try/except flag search still sees the
block (the `HAS_` warning is emitted) — the guard statements are treated as
top-level statements. -/
theorem c9_guard_statements_promoted (B pre gb tb : List Stmt)
    (hbs : List (List Stmt)) (rest : String) (names : List Alias)
    (iln tln gln : Nat)
    (hBdef : B = pre ++ [Stmt.ifStmt (some "__name__") gb gln])
    (himp : Stmt.importFromStmt ("ansible.module_utils." ++ rest) names iln ∈ gb)
    (hte : Stmt.tryExcept tb hbs tln ∈ gb)
    (hti : hasImportIn (tryExceptBodies tb hbs) = true)
    (hth : hasHasAssign (tryExceptBodies tb hbs) = false) :
    (∀ n, (findMainCall n B).newBody = B ++ (ifBodies pre ++ gb)) ∧
    "Did not find a module_utils import" ∉ (validate sampleEnv (mkPyModule B)).errors ∧
    hasMsg ∈ (validate sampleEnv (mkPyModule B)).warnings := by
  have hifB : ifBodies B = ifBodies pre ++ gb := by
    rw [hBdef, ifBodies_append, ifBodies_guard_singleton]
  have hbl : isBlacklisted sampleEnv (mkPyModule B) = false := rfl
  have hpk : pythonKind (mkPyModule B) = true := rfl
  have hjd : justDocs (some B) = false := by
    rw [hBdef]
    simp [justDocs, List.all_append, isAssignB]
  have himpNew : Stmt.importFromStmt ("ansible.module_utils." ++ rest) names iln
      ∈ B ++ ifBodies B := by
    rw [hifB]
    exact List.mem_append.mpr (Or.inr (List.mem_append.mpr (Or.inr himp)))
  have hteNew : Stmt.tryExcept tb hbs tln ∈ B ++ ifBodies B := by
    rw [hifB]
    exact List.mem_append.mpr (Or.inr (List.mem_append.mpr (Or.inr hte)))
  have hast : (mkPyModule B).astOpt = some B := rfl
  have htext : (mkPyModule B).text = [] := rfl
  have hbase : (mkPyModule B).basename = "mod.py" := rfl
  have hps : ps1Ext (mkPyModule B) = false := rfl
  have hext : extensionErrors (mkPyModule B) = [] := rfl
  have hsplit : pySplitlines ([] : List Char) = [] := rfl
  have hsys : checkForSysExit ([] : List Char) = [] := rfl
  have htabs : checkForTabs ([] : List Char) = [] := rfl
  have hred : ∀ l, findRedeclarations sampleEnv l = [] := fun _ => rfl
  have hgpl : checkForGpl3Header ([] : List Char)
      = ["GPLv3 license header not found"] := rfl
  have hint : checkInterpreter false ([] : List Char)
      = ["Interpreter line is not \"#!/usr/bin/python\""] := rfl
  have hdocsE : sampleEnv.docsErrors = [] := rfl
  have hdocsW : sampleEnv.docsWarnings = [] := rfl
  refine ⟨?_, ?_, ?_⟩
  · intro n
    show B ++ ifBodies B = _
    rw [hifB]
  · intro hx
    simp only [validate, validateChecks, batteryReport, hbl, hpk, hjd, hast, htext,
      hbase, hps, hext, hsplit, hsys, htabs, hred, hgpl, hint, hdocsE, hdocsW,
      Option.isNone_some, Bool.true_and, Bool.and_false, Bool.not_false, Bool.and_self,
      if_false, if_true, Bool.false_eq_true, List.length_nil, List.nil_append,
      List.append_nil, List.mem_append, List.mem_singleton] at hx
    rcases hx with (((hx | hx) | hx) | hx) | hx
    · exact absurd (mem_findRequestsImport_eq _ hx) (by decide)
    · rcases mem_findMainCall_errors _ hx with h | h
      · exact absurd h (by decide)
      · exact absurd h (by decide)
    · have hnb : (findMainCall 0 B).newBody = B ++ ifBodies B := rfl
      rw [hnb] at hx
      exact absurd hx
        (absence_not_mem_findModuleUtils himpNew (pyStartsWith_self_append _ _))
    · exact absurd hx (by decide)
    · exact absurd hx (by decide)
  · have hhas : hasMsg ∈ findHasImport (B ++ ifBodies B) :=
      mem_pyFold.mpr ⟨Stmt.tryExcept tb hbs tln, hteNew, by simp [hti, hth]⟩
    have hnb : (findMainCall 0 B).newBody = B ++ ifBodies B := rfl
    simp only [validate, validateChecks, batteryReport, hbl, hpk, hjd, hast, htext,
      hbase, hps, hext, hsplit, hsys, htabs, hred, hgpl, hint, hdocsE, hdocsW,
      Option.isNone_some, Bool.true_and, Bool.and_false, Bool.not_false, Bool.and_self,
      if_false, if_true, Bool.false_eq_true, List.length_nil, List.nil_append,
      List.append_nil, List.mem_append, List.mem_singleton, hnb]
    exact Or.inr hhas

/-- The guard body of the concrete C9 witness module: a wildcard
module-utils import statement, a try/except import block without a `HAS_`
flag, and the `main()` call, all inside the `__name__` guard. -/
def c9GuardBody : List Stmt :=
  [Stmt.importFromStmt ("ansible.module_utils." ++ "basic") [⟨"*", none⟩] 3,
   Stmt.tryExcept [Stmt.importStmt [⟨"simplejson", none⟩] 4] [] 4,
   Stmt.exprCall (some "main") 6]

def c9Module : PyModule := mkPyModule [Stmt.ifStmt (some "__name__") c9GuardBody 2]

/-- Witness for C9 at the concrete module. -/
theorem c9_guard_statements_promoted_witness :
    "Did not find a module_utils import" ∉ (validate sampleEnv c9Module).errors ∧
      hasMsg ∈ (validate sampleEnv c9Module).warnings :=
  ⟨(c9_guard_statements_promoted [Stmt.ifStmt (some "__name__") c9GuardBody 2] []
      c9GuardBody [Stmt.importStmt [⟨"simplejson", none⟩] 4] [] "basic" [⟨"*", none⟩]
      3 4 2 rfl (by simp [c9GuardBody]) (by simp [c9GuardBody]) (by decide)
      (by decide)).2.1,
   (c9_guard_statements_promoted [Stmt.ifStmt (some "__name__") c9GuardBody 2] []
      c9GuardBody [Stmt.importStmt [⟨"simplejson", none⟩] 4] [] "basic" [⟨"*", none⟩]
      3 4 2 rfl (by simp [c9GuardBody]) (by simp [c9GuardBody]) (by decide)
      (by decide)).2.2⟩

end AnsibleTesting
